import Mathlib

/-!
Verification of the odyssey-on-the-phone demo scripts.

This file gives a shallow embedding of the two pieces of original logic in
the repository — the push-transition renderer (`play_transition` in
`interact_longer_scenario.py`) together with its caller's segment-end
handling (`run_odyssey`), the pairing-pool selection (`generate_next_image`),
and the cooldown-gated interaction endpoint (`interact` in
`official_demo_replica.py`) — and proves the spec's claims about them.

Machine reals (Python floats) are modelled by `ℚ`; all the concrete
quantities appearing in the claims (0, 1/2, 1, i/n at the endpoints) are
exactly representable in binary floating point and the operations on them
are exact, so the rational model agrees with the float computation at every
point a claim is decided.
-/

/-- A decoded raster image: width × height, pixels addressed as (x, y).
The pixel payload (an RGB triple in the code) is abstracted to `ℕ`;
`0` plays the role of the black background of `Image.new("RGB", ...)`. -/
structure Img where
  width : ℕ
  height : ℕ
  pix : ℕ → ℕ → ℕ

/-- `Image.new("RGB", (w, h))`: a black image of the given size. -/
def imgNew (w h : ℕ) : Img :=
  { width := w, height := h, pix := fun _ _ => 0 }

/-- `base.paste(img, (px, py))`: overlay `img` onto `base` with its top-left
corner at `(px, py)`; pixels outside the pasted region keep `base`'s value. -/
def paste (base img : Img) (px py : ℕ) : Img :=
  { base with
    pix := fun x y =>
      if px ≤ x ∧ x < px + img.width ∧ py ≤ y ∧ y < py + img.height then
        img.pix (x - px) (y - py)
      else
        base.pix x y }

/-- `img.crop((l, t, r, b))`: the window `[l, r) × [t, b)` of `img`. -/
def crop (img : Img) (l t r b : ℕ) : Img :=
  { width := r - l, height := b - t, pix := fun x y => img.pix (l + x) (t + y) }

/-- Two images agree as rasters: same dimensions and the same pixel value at
every in-bounds coordinate. -/
def Img.EqOn (a b : Img) : Prop :=
  a.width = b.width ∧ a.height = b.height ∧
    ∀ x y, x < a.width → y < a.height → a.pix x y = b.pix x y

/-- Transition direction (`direction="left"` / `"right"`). -/
inductive Dir where
  | left
  | right
deriving DecidableEq

/-- Python's `int(q)` on a float: truncation toward zero. -/
def ratTrunc (q : ℚ) : ℤ :=
  if 0 ≤ q then ⌊q⌋ else ⌈q⌉

/-- The smoothstep easing `t * t * (3 - 2 * t)` applied to the normalized
time in `play_transition`. -/
def ease (t : ℚ) : ℚ :=
  t * t * (3 - 2 * t)

/-- The horizontal pixel offset of output frame `i` out of `n`:
`offset = int(t * width)` after easing, exactly as in `play_transition`
(Python's `int` truncates; the eased time is nonnegative here, so this is
the floor). -/
def easedOffset (n : ℤ) (i : ℕ) (w : ℕ) : ℕ :=
  (⌊ease ((i : ℚ) / (n : ℚ)) * (w : ℚ)⌋).toNat

/-- The double-width canvas of `play_transition`: `Image.new` of twice the
source width, with the source and (already resized) destination pasted side
by side — source-then-destination for `"left"`, destination-then-source for
`"right"`. -/
def canvasFor (src dst : Img) : Dir → Img
  | Dir.left => paste (paste (imgNew (2 * src.width) src.height) src 0 0) dst src.width 0
  | Dir.right => paste (paste (imgNew (2 * src.width) src.height) dst 0 0) src src.width 0

/-- Output frame `i` of the transition: crop a `width`-wide window out of the
canvas, starting at `offset` from the left edge for `"left"` and at
`width - offset` for `"right"`. -/
def frameAt (src dst : Img) (d : Dir) (n : ℤ) (i : ℕ) : Img :=
  let w := src.width
  let offset := easedOffset n i w
  match d with
  | Dir.left => crop (canvasFor src dst Dir.left) offset 0 (offset + w) src.height
  | Dir.right => crop (canvasFor src dst Dir.right) (w - offset) 0 (2 * w - offset) src.height

/-- The ways `play_transition` can raise: `Image.open` failing on the
destination path (an image-load error), or `duration / num_frames` dividing
by zero when `int(duration * fps) == 0`. -/
inductive TransitionError where
  | imageLoadError
  | zeroDivisionError
deriving DecidableEq

/-- Shallow embedding of `play_transition(last_frame_data, new_image_path,
direction, duration, fps)`.

`resize` stands for PIL's `Image.resize` (an external library call, taken as
a parameter; theorems assume only its size contract), and the destination
argument is the result of decoding `new_image_path`: `none` when
`Image.open` fails. The returned list is the sequence of frames written into
the shared frame store (`current_frame`), in write order: one write per loop
iteration `i in range(num_frames + 1)`. -/
def playTransition (resize : ℕ → ℕ → Img → Img) (src : Img) (dstDecoded : Option Img)
    (d : Dir) (duration : ℚ) (fps : ℤ) : Except TransitionError (List Img) :=
  match dstDecoded with
  | none => Except.error TransitionError.imageLoadError
  | some dst0 =>
    let dst := resize src.width src.height dst0
    let n := ratTrunc (duration * (fps : ℚ))
    if n = 0 then
      Except.error TransitionError.zeroDivisionError
    else
      Except.ok ((List.range (n + 1).toNat).map (frameAt src dst d n))

/-! ### Interaction gate (`official_demo_replica.py`) -/

/-- Body of a Flask JSON response from `/interact`: either
`{"success": true, ...}` or `{"error": msg}`. -/
inductive RespBody where
  | success
  | err (msg : String)
deriving DecidableEq

/-- An HTTP response: status code plus JSON body. -/
structure HttpResponse where
  status : ℕ
  body : RespBody
deriving DecidableEq

/-- The gate-relevant mutable state of `official_demo_replica.py`:
`stream_active`, `interaction_ready`, whether `odyssey_client` is non-`None`,
the interaction queue's contents, and the delays of the armed (not yet
fired) one-shot cooldown timers. -/
structure GateState where
  streamActive : Bool
  interactionReady : Bool
  clientInit : Bool
  queue : List String
  timers : List ℚ
deriving DecidableEq

/-- `INTERACTION_COOLDOWN = 3` seconds. -/
def INTERACTION_COOLDOWN : ℚ := 3

/-- Module-level initial state: `stream_active = False`,
`odyssey_client = None`, `interaction_ready = True`, empty queue,
no timer armed. -/
def initialGate : GateState :=
  { streamActive := false, interactionReady := true, clientInit := false,
    queue := [], timers := [] }

/-- `_send_interaction_async(prompt)`: put the prompt on the interaction
queue and arm a one-shot `threading.Timer(INTERACTION_COOLDOWN, ...)`. -/
def sendInteractionAsync (st : GateState) (prompt : String) : GateState :=
  { st with queue := st.queue ++ [prompt],
            timers := st.timers ++ [INTERACTION_COOLDOWN] }

/-- An armed cooldown timer expiring: the one-shot timer is consumed and its
callback `_reset_interaction_ready` runs, unconditionally setting
`interaction_ready = True`. -/
def timerFire (st : GateState) : GateState :=
  { st with interactionReady := true, timers := st.timers.tail }

/-- Shallow embedding of the `POST /interact` handler: the guard checks in
source order (stream inactive → 400, cooling down → 429, client
uninitialized → 500, empty prompt → 400), then
`interaction_ready = False`, enqueue, arm the cooldown timer, and answer
`{"success": true}` (status 200). -/
def interact (st : GateState) (prompt : String) : HttpResponse × GateState :=
  if st.streamActive = false then
    ({ status := 400, body := RespBody.err "Stream not active" }, st)
  else if st.interactionReady = false then
    ({ status := 429, body := RespBody.err "Please wait before sending another interaction" }, st)
  else if st.clientInit = false then
    ({ status := 500, body := RespBody.err "Client not initialized" }, st)
  else if prompt = "" then
    ({ status := 400, body := RespBody.err "No prompt provided" }, st)
  else
    ({ status := 200, body := RespBody.success },
      sendInteractionAsync { st with interactionReady := false } prompt)

/-! ### Pairing-pool selection (`generate_next_image`) -/

/-- The outcome of the pure selection logic at the top of
`generate_next_image`: the chosen newcomer, the pool after drawing, and the
new pair (the keeper switches sides). -/
structure SelectResult where
  keeper : String
  newcomer : String
  newPool : List String
  newPair : String × String
deriving DecidableEq

/-- The draw at the end of the selection in `generate_next_image`:
`newcomer = candidates[0]` (with `none` modelling the `IndexError` on an
empty candidate list), `pool.remove(newcomer)` (first occurrence), and the
keeper switching sides in the new pair. -/
def selectDraw (keepLeft : Bool) (pair : String × String)
    (cands pool1 : List String) : Option SelectResult :=
  match cands with
  | [] => none
  | newcomer :: _ =>
    some { keeper := if keepLeft then pair.1 else pair.2, newcomer := newcomer,
           newPool := pool1.erase newcomer,
           newPair := if keepLeft then (newcomer, pair.1) else (pair.2, newcomer) }

/-- Shallow embedding of the pairing selection in `generate_next_image`:
filter the pool to candidates differing from both current-pair members;
if none remain, refill with a shuffle of the universe excluding both
current-pair members and draw from that refill; otherwise draw from the
filtered candidates.

`shuffle` stands for `random.shuffle` (a permutation, taken as a parameter)
and `keepLeft` for the `random.choice` between the two current-pair
members. -/
def selectNext (shuffle : List String → List String) (keepLeft : Bool)
    (people : List String) (pair : String × String) (pool : List String) :
    Option SelectResult :=
  if (pool.filter fun p => p != pair.1 && p != pair.2).isEmpty then
    selectDraw keepLeft pair
      (shuffle (people.filter fun p => p != pair.1 && p != pair.2))
      (shuffle (people.filter fun p => p != pair.1 && p != pair.2))
  else
    selectDraw keepLeft pair
      (pool.filter fun p => p != pair.1 && p != pair.2) pool

/-! ### Session driver segment-end handling (`run_odyssey`) -/

/-- The driver state touched by the segment-end block of `run_odyssey`:
the current seed image (as its decoded content, `none` when the file cannot
be decoded), the current pairing, the frame store, the status string,
whether a background fal task is outstanding, and the shutdown flag. -/
structure DriverState where
  currentImage : Option Img
  currentPair : String × String
  frameStore : Option Img
  falStatus : String
  falTask : Bool
  shouldShutdown : Bool

/-- Result of the completed background fal task as seen at segment end:
either `fal_task.result()` raises, or it yields a new image path (here its
decoded content: `none` when `Image.open` on it fails), the new pair and a
direction. -/
inductive FalOutcome where
  | failed
  | done (img : Option Img) (pair : String × String) (d : Dir)

/-- Shallow embedding of the segment-end block of `run_odyssey` (the body of
`if fal_task.done():`): take the fal result, play the transition from the
last stored frame (with default `duration=1.0, fps=30`), adopt the new image
and pair on success; on any exception — including the transition's
`ImageLoadError` — set the failure status and keep the current image and
pair. In every case the task slot is cleared (`fal_task = None`). -/
def segmentEnd (resize : ℕ → ℕ → Img → Img) (st : DriverState) (outcome : FalOutcome) :
    DriverState :=
  match outcome with
  | FalOutcome.failed =>
    { st with falStatus := "Generation failed, reusing current pair", falTask := false }
  | FalOutcome.done img pair d =>
    match st.frameStore with
    | none =>
      { st with currentImage := img, currentPair := pair,
                falStatus := "Switched to Person " ++ pair.1 ++ " + Person " ++ pair.2,
                falTask := false }
    | some last =>
      match playTransition resize last img d 1 30 with
      | Except.error _ =>
        { st with falStatus := "Generation failed, reusing current pair", falTask := false }
      | Except.ok frames =>
        { st with currentImage := img, currentPair := pair,
                  frameStore := some ((frames.getLast?).getD last),
                  falStatus := "Switched to Person " ++ pair.1 ++ " + Person " ++ pair.2,
                  falTask := false }

/-! ### Helper lemmas -/

theorem ease_mono {a b : ℚ} (ha : 0 ≤ a) (hab : a ≤ b) (hb : b ≤ 1) :
    ease a ≤ ease b := by
  have hb0 : 0 ≤ b := le_trans ha hab
  have ha1 : a ≤ 1 := le_trans hab hb
  have h1 : 0 ≤ (b - a) * (a * (1 - a)) :=
    mul_nonneg (sub_nonneg.2 hab) (mul_nonneg ha (sub_nonneg.2 ha1))
  have h2 : 0 ≤ (b - a) * (b * (1 - b)) :=
    mul_nonneg (sub_nonneg.2 hab) (mul_nonneg hb0 (sub_nonneg.2 hb))
  have h3 : 0 ≤ (b - a) * (a * (1 - b)) :=
    mul_nonneg (sub_nonneg.2 hab) (mul_nonneg ha (sub_nonneg.2 hb))
  have h4 : 0 ≤ (b - a) * (b * (1 - a)) :=
    mul_nonneg (sub_nonneg.2 hab) (mul_nonneg hb0 (sub_nonneg.2 ha1))
  unfold ease
  nlinarith [h1, h2, h3, h4]

theorem ease_nonneg {t : ℚ} (ht : 0 ≤ t) (ht1 : t ≤ 1) : 0 ≤ ease t := by
  have : (0 : ℚ) ≤ 3 - 2 * t := by linarith
  exact mul_nonneg (mul_nonneg ht ht) this

theorem ease_le_one {t : ℚ} (ht : 0 ≤ t) (ht1 : t ≤ 1) : ease t ≤ 1 := by
  have h := ease_mono ht ht1 le_rfl
  have h1 : ease 1 = 1 := by norm_num [ease]
  linarith [h, h1.le]

theorem easedOffset_zero (n : ℤ) (w : ℕ) : easedOffset n 0 w = 0 := by
  simp [easedOffset, ease]

theorem easedOffset_last {n : ℤ} (hn : 1 ≤ n) (w : ℕ) :
    easedOffset n n.toNat w = w := by
  have htn : ((n.toNat : ℕ) : ℚ) = (n : ℚ) := by
    have h := Int.toNat_of_nonneg (by omega : (0 : ℤ) ≤ n)
    exact_mod_cast congrArg (fun z : ℤ => (z : ℚ)) h
  have hne : ((n : ℚ)) ≠ 0 := by
    have : (0 : ℚ) < (n : ℚ) := by exact_mod_cast hn
    linarith
  unfold easedOffset
  rw [htn, div_self hne]
  norm_num [ease]

theorem easedOffset_le {n : ℤ} {i : ℕ} (hn : 1 ≤ n) (hi : (i : ℤ) ≤ n) (w : ℕ) :
    easedOffset n i w ≤ w := by
  have hnpos : (0 : ℚ) < (n : ℚ) := by exact_mod_cast hn
  have ht0 : (0 : ℚ) ≤ (i : ℚ) / (n : ℚ) :=
    div_nonneg (by positivity) hnpos.le
  have ht1 : (i : ℚ) / (n : ℚ) ≤ 1 := by
    rw [div_le_one hnpos]
    exact_mod_cast hi
  have h1 : ease ((i : ℚ) / (n : ℚ)) * (w : ℚ) ≤ (w : ℚ) := by
    have := ease_le_one ht0 ht1
    have hw : (0 : ℚ) ≤ (w : ℚ) := by positivity
    nlinarith
  have h2 : ⌊ease ((i : ℚ) / (n : ℚ)) * (w : ℚ)⌋ ≤ (w : ℤ) := by
    have := Int.floor_le_floor h1
    simpa using this
  unfold easedOffset
  omega

theorem canvasFor_left_pix (src dst : Img) (hdw : dst.width = src.width)
    (hdh : dst.height = src.height) (z y : ℕ)
    (hz : z < 2 * src.width) (hy : y < src.height) :
    (canvasFor src dst Dir.left).pix z y =
      if z < src.width then src.pix z y else dst.pix (z - src.width) y := by
  simp only [canvasFor, paste, imgNew]
  by_cases h : z < src.width
  · rw [if_pos h]
    rw [if_neg (by omega), if_pos (by omega)]
    simp
  · rw [if_neg h]
    rw [if_pos (by refine ⟨by omega, by omega, by omega, by omega⟩)]
    simp

theorem canvasFor_right_pix (src dst : Img) (hdw : dst.width = src.width)
    (hdh : dst.height = src.height) (z y : ℕ)
    (hz : z < 2 * src.width) (hy : y < src.height) :
    (canvasFor src dst Dir.right).pix z y =
      if z < src.width then dst.pix z y else src.pix (z - src.width) y := by
  simp only [canvasFor, paste, imgNew]
  by_cases h : z < src.width
  · rw [if_pos h]
    rw [if_neg (by omega), if_pos (by omega)]
    simp
  · rw [if_neg h]
    rw [if_pos (by refine ⟨by omega, by omega, by omega, by omega⟩)]
    simp

theorem frameAt_left_pix (src dst : Img) (n : ℤ) (i x y : ℕ)
    (hdw : dst.width = src.width) (hdh : dst.height = src.height)
    (hoff : easedOffset n i src.width ≤ src.width)
    (hx : x < src.width) (hy : y < src.height) :
    (frameAt src dst Dir.left n i).pix x y =
      if easedOffset n i src.width + x < src.width then
        src.pix (easedOffset n i src.width + x) y
      else
        dst.pix (easedOffset n i src.width + x - src.width) y := by
  simp only [frameAt, crop]
  rw [show (0 + y) = y by omega]
  exact canvasFor_left_pix src dst hdw hdh _ y (by omega) hy

theorem frameAt_right_pix (src dst : Img) (n : ℤ) (i x y : ℕ)
    (hdw : dst.width = src.width) (hdh : dst.height = src.height)
    (hoff : easedOffset n i src.width ≤ src.width)
    (hx : x < src.width) (hy : y < src.height) :
    (frameAt src dst Dir.right n i).pix x y =
      if (src.width - easedOffset n i src.width) + x < src.width then
        dst.pix ((src.width - easedOffset n i src.width) + x) y
      else
        src.pix ((src.width - easedOffset n i src.width) + x - src.width) y := by
  simp only [frameAt, crop]
  rw [show (0 + y) = y by omega]
  exact canvasFor_right_pix src dst hdw hdh _ y (by omega) hy

theorem frameAt_left_width (src dst : Img) (n : ℤ) (i : ℕ) :
    (frameAt src dst Dir.left n i).width = src.width := by
  simp only [frameAt, crop]
  omega

theorem frameAt_right_width (src dst : Img) (n : ℤ) (i : ℕ)
    (hoff : easedOffset n i src.width ≤ src.width) :
    (frameAt src dst Dir.right n i).width = src.width := by
  simp only [frameAt, crop]
  omega

theorem frameAt_height (src dst : Img) (d : Dir) (n : ℤ) (i : ℕ) :
    (frameAt src dst d n i).height = src.height := by
  cases d <;> simp [frameAt, crop]

theorem ratTrunc_eq_floor {q : ℚ} (h : 0 ≤ q) : ratTrunc q = ⌊q⌋ :=
  if_pos h

theorem range_map_getElem? {α : Type} (f : ℕ → α) (m i : ℕ) (h : i < m) :
    ((List.range m).map f)[i]? = some (f i) := by
  simp [List.getElem?_map, List.getElem?_range, h]

theorem playTransition_ok (resize : ℕ → ℕ → Img → Img) (src dst0 : Img) (d : Dir)
    (duration : ℚ) (fps : ℤ) (hn : ratTrunc (duration * (fps : ℚ)) ≠ 0) :
    playTransition resize src (some dst0) d duration fps =
      Except.ok ((List.range (ratTrunc (duration * (fps : ℚ)) + 1).toNat).map
        (frameAt src (resize src.width src.height dst0) d
          (ratTrunc (duration * (fps : ℚ))))) := by
  simp [playTransition, hn]

theorem frameAt_first_eqOn (src dst : Img) (d : Dir) (n : ℤ)
    (hdw : dst.width = src.width) (hdh : dst.height = src.height) :
    Img.EqOn (frameAt src dst d n 0) src := by
  have hoff : easedOffset n 0 src.width ≤ src.width := by
    rw [easedOffset_zero]; omega
  refine ⟨?_, frameAt_height src dst d n 0, ?_⟩
  · cases d
    · exact frameAt_left_width src dst n 0
    · exact frameAt_right_width src dst n 0 hoff
  · intro x y hx hy
    have hx' : x < src.width := by
      cases d
      · rwa [frameAt_left_width] at hx
      · rwa [frameAt_right_width src dst n 0 hoff] at hx
    have hy' : y < src.height := by rwa [frameAt_height] at hy
    cases d
    · rw [frameAt_left_pix src dst n 0 x y hdw hdh hoff hx' hy', easedOffset_zero]
      rw [if_pos (by omega)]
      congr 1
      omega
    · rw [frameAt_right_pix src dst n 0 x y hdw hdh hoff hx' hy', easedOffset_zero]
      rw [if_neg (by omega)]
      congr 1
      omega

theorem frameAt_last_eqOn (src dst : Img) (d : Dir) {n : ℤ} (hn : 1 ≤ n)
    (hdw : dst.width = src.width) (hdh : dst.height = src.height) :
    Img.EqOn (frameAt src dst d n n.toNat) dst := by
  have hoff : easedOffset n n.toNat src.width ≤ src.width := by
    rw [easedOffset_last hn]
  refine ⟨?_, ?_, ?_⟩
  · cases d
    · rw [frameAt_left_width, hdw]
    · rw [frameAt_right_width src dst n n.toNat hoff, hdw]
  · rw [frameAt_height, hdh]
  · intro x y hx hy
    have hx' : x < src.width := by
      cases d
      · rwa [frameAt_left_width] at hx
      · rwa [frameAt_right_width src dst n n.toNat hoff] at hx
    have hy' : y < src.height := by rwa [frameAt_height] at hy
    cases d
    · rw [frameAt_left_pix src dst n n.toNat x y hdw hdh hoff hx' hy', easedOffset_last hn]
      rw [if_neg (by omega)]
      congr 1
      omega
    · rw [frameAt_right_pix src dst n n.toNat x y hdw hdh hoff hx' hy', easedOffset_last hn]
      rw [if_pos (by omega)]
      congr 1
      omega

/-! ### Concrete fixtures used by witnesses -/

/-- A resize function satisfying PIL's size contract, used to instantiate
witnesses. -/
def idResize : ℕ → ℕ → Img → Img :=
  fun w h im => { width := w, height := h, pix := im.pix }

/-- A concrete 2×1 source image. -/
def srcA : Img :=
  { width := 2, height := 1, pix := fun x y => 100 + 10 * x + y }

/-- A concrete 2×1 destination image. -/
def dstA : Img :=
  { width := 2, height := 1, pix := fun x y => 200 + 10 * x + y }

/-! ### Claims -/

/-- C7: the smoothstep easing `t' = t*t*(3 - 2*t)` used by the Transition
Renderer is monotonic non-decreasing on [0,1] and satisfies `ease(0)=0`,
`ease(1)=1` and `ease(0.5)=0.5`. -/
theorem C7_ease_monotone_endpoints :
    (∀ a b : ℚ, 0 ≤ a → a ≤ b → b ≤ 1 → ease a ≤ ease b) ∧
    ease 0 = 0 ∧ ease 1 = 1 ∧ ease (1 / 2) = 1 / 2 := by
  refine ⟨fun a b ha hab hb => ease_mono ha hab hb, ?_, ?_, ?_⟩ <;> norm_num [ease]

/-- C7 witness: the monotonicity conjunct applied at the concrete pair
(0, 1/2). -/
theorem C7_ease_monotone_endpoints_witness : ease 0 ≤ ease (1 / 2) :=
  C7_ease_monotone_endpoints.1 0 (1 / 2) le_rfl (by norm_num) (by norm_num)

/-- C3 counterexample: the code computes the offset with Python `int`
(truncation), not `round`. At frame 15 of the left/1s/30fps scenario with
frame width 7 the eased time is exactly 1/2, and the code's offset
`int(0.5 * 7) = 3` differs from `round(0.5 * 7) = 4`. -/
theorem C3_offset_not_round_cex :
    (easedOffset 30 15 7 : ℤ) ≠ round (ease ((15 : ℚ) / 30) * 7) := by
  have h1 : easedOffset 30 15 7 = 3 := by
    norm_num [easedOffset, ease]
    rfl
  have h2 : round (ease ((15 : ℚ) / 30) * 7) = 4 := by
    rw [round_eq]
    norm_num [ease]
  rw [h1, h2]
  decide

/-- C3 (amended): for every output frame index the horizontal pixel offset
equals `int(t' * frame_width)` — truncation, i.e. the floor, of the eased
normalized time times the width — not `round`; in particular, for direction
"left", duration 1 second, 30 fps, the renderer produces 31 frames and frame
15's window starts at `floor(0.5 * width) = width / 2` for every frame
width. -/
theorem C3_frame15_offset_amended
    (resize : ℕ → ℕ → Img → Img)
    (hres : ∀ w h im, (resize w h im).width = w ∧ (resize w h im).height = h)
    (src dst0 : Img) (fs : List Img) (f : Img)
    (hplay : playTransition resize src (some dst0) Dir.left 1 30 = Except.ok fs)
    (hf : fs[15]? = some f) (x y : ℕ) (hx : x < src.width) (hy : y < src.height) :
    fs.length = 31 ∧
    f.pix x y =
      (if src.width / 2 + x < src.width then
        src.pix (src.width / 2 + x) y
      else
        (resize src.width src.height dst0).pix (src.width / 2 + x - src.width) y) := by
  have hn : ratTrunc ((1 : ℚ) * ((30 : ℤ) : ℚ)) = 30 := by
    norm_num [ratTrunc]
  rw [playTransition_ok resize src dst0 Dir.left 1 30 (by rw [hn]; decide), hn] at hplay
  have hfs : fs = (List.range (31 : ℕ)).map
      (frameAt src (resize src.width src.height dst0) Dir.left 30) := by
    have := hplay
    injection this with h
    exact h.symm
  subst hfs
  constructor
  · simp
  · rw [range_map_getElem? _ 31 15 (by omega)] at hf
    have hfeq : f = frameAt src (resize src.width src.height dst0) Dir.left 30 15 := by
      injection hf with h
      exact h.symm
    subst hfeq
    have hoffval : easedOffset 30 15 src.width = src.width / 2 := by
      unfold easedOffset
      have h15 : (((15 : ℕ) : ℚ) / (((30 : ℤ) : ℤ) : ℚ)) = 1 / 2 := by
        norm_num
      rw [h15]
      have h15e : ease (1 / 2) = 1 / 2 := by
        norm_num [ease]
      rw [h15e]
      have hhalf : (1 / 2 : ℚ) * (src.width : ℚ) =
          ((src.width : ℤ) : ℚ) / ((2 : ℕ) : ℚ) := by
        push_cast
        ring
      rw [hhalf, Rat.floor_intCast_div_natCast]
      omega
    have hoff : easedOffset 30 15 src.width ≤ src.width := by
      rw [hoffval]; omega
    rw [frameAt_left_pix src (resize src.width src.height dst0) 30 15 x y
      (hres src.width src.height dst0).1 (hres src.width src.height dst0).2 hoff hx hy,
      hoffval]

/-- C3 amended witness: the amended theorem applied at a concrete input
(width-2 images, coordinate (0,0)). -/
theorem C3_frame15_offset_amended_witness :
    ((List.range (31 : ℕ)).map (frameAt srcA dstA Dir.left 30)).length = 31 ∧
    (frameAt srcA dstA Dir.left 30 15).pix 0 0 =
      (if srcA.width / 2 + 0 < srcA.width then
        srcA.pix (srcA.width / 2 + 0) 0
      else
        (idResize srcA.width srcA.height dstA).pix (srcA.width / 2 + 0 - srcA.width) 0) := by
  have h := C3_frame15_offset_amended idResize
    (fun w h im => ⟨rfl, rfl⟩) srcA dstA
    ((List.range (31 : ℕ)).map (frameAt srcA dstA Dir.left 30))
    (frameAt srcA dstA Dir.left 30 15)
    (by
      rw [playTransition_ok idResize srcA dstA Dir.left 1 30
        (by norm_num [ratTrunc])]
      norm_num [ratTrunc]
      rfl)
    (range_map_getElem? _ 31 15 (by omega)) 0 0 (by decide) (by decide)
  exact h

/-- C1: for every direction, duration > 0 and frame rate > 0 with
`floor(duration * frame_rate) ≥ 1`, `play_transition` writes exactly
`floor(duration * frame_rate) + 1` frames into the Frame Store; the first
written frame equals the source frame unchanged, and the last written frame
(index `num_frames`) equals the resized destination image occupying the
entire frame exactly. -/
theorem C1_transition_count_and_endpoints
    (resize : ℕ → ℕ → Img → Img)
    (hres : ∀ w h im, (resize w h im).width = w ∧ (resize w h im).height = h)
    (src dst0 : Img) (d : Dir) (duration : ℚ) (fps : ℤ)
    (hdur : 0 < duration) (hfps : 0 < fps)
    (hn : 1 ≤ ⌊duration * ((fps : ℤ) : ℚ)⌋) :
    ∃ fs f0 fN,
      playTransition resize src (some dst0) d duration fps = Except.ok fs ∧
      fs.length = (⌊duration * ((fps : ℤ) : ℚ)⌋).toNat + 1 ∧
      fs[0]? = some f0 ∧ Img.EqOn f0 src ∧
      fs[(⌊duration * ((fps : ℤ) : ℚ)⌋).toNat]? = some fN ∧
      Img.EqOn fN (resize src.width src.height dst0) := by
  have h0 : (0 : ℚ) ≤ duration * ((fps : ℤ) : ℚ) := by
    have : (0 : ℚ) < ((fps : ℤ) : ℚ) := by exact_mod_cast hfps
    positivity
  have htr : ratTrunc (duration * ((fps : ℤ) : ℚ)) = ⌊duration * ((fps : ℤ) : ℚ)⌋ :=
    ratTrunc_eq_floor h0
  set n : ℤ := ⌊duration * ((fps : ℤ) : ℚ)⌋ with hndef
  have hne : ratTrunc (duration * ((fps : ℤ) : ℚ)) ≠ 0 := by omega
  have hplay := playTransition_ok resize src dst0 d duration fps hne
  rw [htr] at hplay
  set dst := resize src.width src.height dst0 with hdst
  have hdw : dst.width = src.width := (hres src.width src.height dst0).1
  have hdh : dst.height = src.height := (hres src.width src.height dst0).2
  refine ⟨(List.range (n + 1).toNat).map (frameAt src dst d n),
    frameAt src dst d n 0, frameAt src dst d n n.toNat, hplay, ?_, ?_, ?_, ?_, ?_⟩
  · simp only [List.length_map, List.length_range]
    omega
  · exact range_map_getElem? _ _ 0 (by omega)
  · exact frameAt_first_eqOn src dst d n hdw hdh
  · exact range_map_getElem? _ _ n.toNat (by omega)
  · exact frameAt_last_eqOn src dst d hn hdw hdh

/-- C1 witness: the theorem applied at direction "left", duration 1, 30 fps
on concrete 2×1 images. -/
theorem C1_transition_count_and_endpoints_witness :
    ∃ fs f0 fN,
      playTransition idResize srcA (some dstA) Dir.left 1 30 = Except.ok fs ∧
      fs.length = (⌊(1 : ℚ) * (((30 : ℤ) : ℤ) : ℚ)⌋).toNat + 1 ∧
      fs[0]? = some f0 ∧ Img.EqOn f0 srcA ∧
      fs[(⌊(1 : ℚ) * (((30 : ℤ) : ℤ) : ℚ)⌋).toNat]? = some fN ∧
      Img.EqOn fN (idResize srcA.width srcA.height dstA) :=
  C1_transition_count_and_endpoints idResize (fun w h im => ⟨rfl, rfl⟩)
    srcA dstA Dir.left 1 30 (by norm_num) (by norm_num) (by norm_num)

/-- C4: the renderer builds a canvas of twice the frame width — laid out
source-then-destination for direction "left" and destination-then-source for
"right" — and output frame `i` is the `frame_width`-wide window of that
canvas starting at `offset(i)` from the left edge for "left" and at
`frame_width - offset(i)` for "right" (stated with the canvas layout
composed in: a window pixel comes from the source part or the destination
part of the canvas according to its position). -/
theorem C4_canvas_layout_and_window
    (resize : ℕ → ℕ → Img → Img)
    (hres : ∀ w h im, (resize w h im).width = w ∧ (resize w h im).height = h)
    (src dst0 : Img) (duration : ℚ) (fps : ℤ)
    (hn : 1 ≤ ratTrunc (duration * ((fps : ℤ) : ℚ))) :
    ((canvasFor src (resize src.width src.height dst0) Dir.left).width = 2 * src.width ∧
     (canvasFor src (resize src.width src.height dst0) Dir.right).width = 2 * src.width) ∧
    (∀ fs, playTransition resize src (some dst0) Dir.left duration fps = Except.ok fs →
      ∀ i f, fs[i]? = some f →
        f.width = src.width ∧ f.height = src.height ∧
        ∀ x y, x < src.width → y < src.height →
          f.pix x y =
            (if easedOffset (ratTrunc (duration * ((fps : ℤ) : ℚ))) i src.width + x
                < src.width then
              src.pix
                (easedOffset (ratTrunc (duration * ((fps : ℤ) : ℚ))) i src.width + x) y
            else
              (resize src.width src.height dst0).pix
                (easedOffset (ratTrunc (duration * ((fps : ℤ) : ℚ))) i src.width + x
                  - src.width) y)) ∧
    (∀ fs, playTransition resize src (some dst0) Dir.right duration fps = Except.ok fs →
      ∀ i f, fs[i]? = some f →
        f.width = src.width ∧ f.height = src.height ∧
        ∀ x y, x < src.width → y < src.height →
          f.pix x y =
            (if (src.width - easedOffset (ratTrunc (duration * ((fps : ℤ) : ℚ))) i src.width)
                + x < src.width then
              (resize src.width src.height dst0).pix
                ((src.width - easedOffset (ratTrunc (duration * ((fps : ℤ) : ℚ))) i src.width)
                  + x) y
            else
              src.pix
                ((src.width - easedOffset (ratTrunc (duration * ((fps : ℤ) : ℚ))) i src.width)
                  + x - src.width) y)) := by
  set n : ℤ := ratTrunc (duration * ((fps : ℤ) : ℚ)) with hndef
  set dst := resize src.width src.height dst0 with hdst
  have hdw : dst.width = src.width := (hres src.width src.height dst0).1
  have hdh : dst.height = src.height := (hres src.width src.height dst0).2
  have hcanw : ∀ d : Dir, (canvasFor src dst d).width = 2 * src.width := by
    intro d
    cases d <;> simp [canvasFor, paste, imgNew]
  have hplay : ∀ d : Dir, playTransition resize src (some dst0) d duration fps =
      Except.ok ((List.range (n + 1).toNat).map (frameAt src dst d n)) := by
    intro d
    rw [playTransition_ok resize src dst0 d duration fps (by omega)]
  have hoffle : ∀ i : ℕ, i < (n + 1).toNat → easedOffset n i src.width ≤ src.width := by
    intro i hi
    exact easedOffset_le hn (by omega) src.width
  refine ⟨⟨hcanw Dir.left, hcanw Dir.right⟩, ?_, ?_⟩
  · intro fs hfs i f hf
    rw [hplay Dir.left] at hfs
    injection hfs with hfs'
    subst hfs'
    have hi : i < (n + 1).toNat := by
      have := List.getElem?_eq_some.1 hf |>.1
      simpa using this
    rw [range_map_getElem? _ _ i hi] at hf
    have hfeq : f = frameAt src dst Dir.left n i := by
      injection hf with h
      exact h.symm
    subst hfeq
    refine ⟨frameAt_left_width src dst n i, frameAt_height src dst Dir.left n i, ?_⟩
    intro x y hx hy
    exact frameAt_left_pix src dst n i x y hdw hdh (hoffle i hi) hx hy
  · intro fs hfs i f hf
    rw [hplay Dir.right] at hfs
    injection hfs with hfs'
    subst hfs'
    have hi : i < (n + 1).toNat := by
      have := List.getElem?_eq_some.1 hf |>.1
      simpa using this
    rw [range_map_getElem? _ _ i hi] at hf
    have hfeq : f = frameAt src dst Dir.right n i := by
      injection hf with h
      exact h.symm
    subst hfeq
    refine ⟨frameAt_right_width src dst n i (hoffle i hi),
      frameAt_height src dst Dir.right n i, ?_⟩
    intro x y hx hy
    exact frameAt_right_pix src dst n i x y hdw hdh (hoffle i hi) hx hy

/-- C4 witness: the theorem applied at duration 1, 30 fps on concrete 2×1
images (projected to the canvas-width conjunct and the frame-0 window of the
left run). -/
theorem C4_canvas_layout_and_window_witness :
    (canvasFor srcA (idResize srcA.width srcA.height dstA) Dir.left).width
      = 2 * srcA.width ∧
    (canvasFor srcA (idResize srcA.width srcA.height dstA) Dir.right).width
      = 2 * srcA.width :=
  (C4_canvas_layout_and_window idResize (fun w h im => ⟨rfl, rfl⟩) srcA dstA 1 30
    (by norm_num [ratTrunc])).1

/-- C9 counterexample: the implicit claim quantifies over every input with
`duration * fps < 1`, but at `duration = -1, fps = 1` (product `-1 < 1`)
Python's `int` truncates to `-1`, not `0`: `duration / num_frames` does not
divide by zero, `range(num_frames + 1) = range(0)` is empty, and the
renderer returns normally having produced no frame — it does not fail. -/
theorem C9_nonpositive_duration_cex :
    ((-1 : ℚ) * (((1 : ℤ) : ℤ) : ℚ) < 1) ∧
    playTransition idResize srcA (some dstA) Dir.left (-1) 1 = Except.ok [] := by
  constructor
  · norm_num
  · have h : ratTrunc ((-1 : ℚ) * (((1 : ℤ) : ℤ) : ℚ)) = -1 := by
      norm_num [ratTrunc]
      rfl
    simp only [playTransition, h]
    norm_num

/-- C9 (amended): `play_transition` divides by zero exactly on the inputs
where `int(duration * fps) = 0`; in particular, for every input with
`0 ≤ duration * fps < 1` (which covers all nonnegative durations shorter
than one frame) both the per-frame delay `duration / num_frames` and the
normalized time `i / num_frames` divide by zero, so the renderer fails with
a zero-division error instead of producing any frame. -/
theorem C9_zero_frames_division_amended
    (resize : ℕ → ℕ → Img → Img) (src dst0 : Img) (d : Dir)
    (duration : ℚ) (fps : ℤ)
    (h0 : 0 ≤ duration * ((fps : ℤ) : ℚ)) (h1 : duration * ((fps : ℤ) : ℚ) < 1) :
    playTransition resize src (some dst0) d duration fps =
      Except.error TransitionError.zeroDivisionError := by
  have hz : ratTrunc (duration * ((fps : ℤ) : ℚ)) = 0 := by
    rw [ratTrunc_eq_floor h0]
    rw [Int.floor_eq_zero_iff]
    exact ⟨h0, h1⟩
  simp [playTransition, hz]

/-- C9 amended witness: the amended theorem at `duration = 1/2, fps = 1`. -/
theorem C9_zero_frames_division_amended_witness :
    playTransition idResize srcA (some dstA) Dir.left (1 / 2) 1 =
      Except.error TransitionError.zeroDivisionError :=
  C9_zero_frames_division_amended idResize srcA dstA Dir.left (1 / 2) 1
    (by norm_num) (by norm_num)

/-- C2: the Interaction Gate is a two-state machine with initial state READY
(`interaction_ready = True` at module level). A submit with non-empty prompt
while the stream is active (the client being initialized, which the driver
guarantees before activating the stream) in state READY succeeds, enqueues
the prompt, transitions the gate to COOLING_DOWN
(`interaction_ready = False`) and arms exactly one one-shot
`cooldown_seconds` timer; any submit while COOLING_DOWN is rejected with the
state — in particular the queue — left unchanged, via 429 when the stream is
active; an armed timer firing unconditionally returns the gate to READY and
is consumed, so each accepted submission is followed by exactly one
READY-restoring transition. -/
theorem C2_gate_state_machine :
    initialGate.interactionReady = true ∧
    (∀ st : GateState, ∀ p : String,
      st.streamActive = true → st.interactionReady = true → st.clientInit = true →
      p ≠ "" →
      (interact st p).1 = { status := 200, body := RespBody.success } ∧
      (interact st p).2.queue = st.queue ++ [p] ∧
      (interact st p).2.interactionReady = false ∧
      (interact st p).2.timers = st.timers ++ [INTERACTION_COOLDOWN]) ∧
    (∀ st : GateState, ∀ p : String,
      st.interactionReady = false →
      (interact st p).2 = st ∧ (interact st p).1.body ≠ RespBody.success) ∧
    (∀ st : GateState, ∀ p : String,
      st.streamActive = true → st.interactionReady = false →
      (interact st p).1.status = 429) ∧
    (∀ st : GateState,
      (timerFire st).interactionReady = true ∧
      (timerFire st).timers = st.timers.tail) := by
  refine ⟨rfl, ?_, ?_, ?_, ?_⟩
  · intro st p hsa hir hci hp
    simp [interact, hsa, hir, hci, hp, sendInteractionAsync]
  · intro st p hir
    by_cases hsa : st.streamActive = true
    · simp [interact, hsa, hir]
    · simp only [Bool.not_eq_true] at hsa
      simp [interact, hsa]
  · intro st p hsa hir
    simp [interact, hsa, hir]
  · intro st
    exact ⟨rfl, rfl⟩

/-- C2 witness: the accepted-submission conjunct of the gate state machine
applied to a concrete READY state and the prompt "pet". -/
theorem C2_gate_state_machine_witness :
    (interact { streamActive := true, interactionReady := true, clientInit := true,
                queue := [], timers := [] } "pet").1 =
      { status := 200, body := RespBody.success } ∧
    (interact { streamActive := true, interactionReady := true, clientInit := true,
                queue := [], timers := [] } "pet").2.queue = [] ++ ["pet"] ∧
    (interact { streamActive := true, interactionReady := true, clientInit := true,
                queue := [], timers := [] } "pet").2.interactionReady = false ∧
    (interact { streamActive := true, interactionReady := true, clientInit := true,
                queue := [], timers := [] } "pet").2.timers = [] ++ [INTERACTION_COOLDOWN] :=
  C2_gate_state_machine.2.1
    { streamActive := true, interactionReady := true, clientInit := true,
      queue := [], timers := [] } "pet" rfl rfl rfl (by decide)

/-- C6: for every `POST /interact` request, checked in the handler's guard
order: 400 if the stream is inactive; 429 if the stream is active but the
gate is cooling down; 500 if the session client is uninitialized; 400 if the
prompt is empty; and `{success: true}` (status 200) on acceptance. -/
theorem C6_interact_status_codes (st : GateState) (p : String) :
    (st.streamActive = false → (interact st p).1.status = 400) ∧
    (st.streamActive = true → st.interactionReady = false →
      (interact st p).1.status = 429) ∧
    (st.streamActive = true → st.interactionReady = true → st.clientInit = false →
      (interact st p).1.status = 500) ∧
    (st.streamActive = true → st.interactionReady = true → st.clientInit = true →
      p = "" → (interact st p).1.status = 400) ∧
    (st.streamActive = true → st.interactionReady = true → st.clientInit = true →
      p ≠ "" → (interact st p).1 = { status := 200, body := RespBody.success }) := by
  refine ⟨?_, ?_, ?_, ?_, ?_⟩
  · intro hsa
    simp [interact, hsa]
  · intro hsa hir
    simp [interact, hsa, hir]
  · intro hsa hir hci
    simp [interact, hsa, hir, hci]
  · intro hsa hir hci hp
    simp [interact, hsa, hir, hci, hp]
  · intro hsa hir hci hp
    simp [interact, hsa, hir, hci, hp]

/-- C6 witness: the empty-prompt conjunct at a concrete active, ready,
initialized state. -/
theorem C6_interact_status_codes_witness :
    (interact { streamActive := true, interactionReady := true, clientInit := true,
                queue := [], timers := [] } "").1.status = 400 :=
  (C6_interact_status_codes
    { streamActive := true, interactionReady := true, clientInit := true,
      queue := [], timers := [] } "").2.2.2.1 rfl rfl rfl rfl

/-- C10: every rejected `POST /interact` request — stream inactive, gate
cooling down, client uninitialized, or empty prompt, i.e. any response whose
status is not 200 — leaves the gate state entirely unchanged:
`interaction_ready` keeps its value, nothing is enqueued, and no cooldown
timer is armed; in particular an empty-prompt rejection while READY does not
begin a cooldown. -/
theorem C10_rejection_leaves_state_unchanged (st : GateState) (p : String) :
    ((interact st p).1.status ≠ 200 → (interact st p).2 = st) ∧
    (st.streamActive = true → st.interactionReady = true → st.clientInit = true →
      p = "" →
      (interact st p).2.interactionReady = true ∧
      (interact st p).2.queue = st.queue ∧
      (interact st p).2.timers = st.timers) := by
  constructor
  · intro hrej
    by_cases hsa : st.streamActive = true
    · by_cases hir : st.interactionReady = true
      · by_cases hci : st.clientInit = true
        · by_cases hp : p = ""
          · simp [interact, hsa, hir, hci, hp]
          · exfalso
            apply hrej
            simp [interact, hsa, hir, hci, hp]
        · simp only [Bool.not_eq_true] at hci
          simp [interact, hsa, hir, hci]
      · simp only [Bool.not_eq_true] at hir
        simp [interact, hsa, hir]
    · simp only [Bool.not_eq_true] at hsa
      simp [interact, hsa]
  · intro hsa hir hci hp
    simp [interact, hsa, hir, hci, hp]

/-- C10 witness: an empty-prompt rejection at a concrete READY state leaves
the state unchanged and starts no cooldown. -/
theorem C10_rejection_leaves_state_unchanged_witness :
    (interact { streamActive := true, interactionReady := true, clientInit := true,
                queue := ["old"], timers := [] } "").2.interactionReady = true ∧
    (interact { streamActive := true, interactionReady := true, clientInit := true,
                queue := ["old"], timers := [] } "").2.queue = ["old"] ∧
    (interact { streamActive := true, interactionReady := true, clientInit := true,
                queue := ["old"], timers := [] } "").2.timers = [] :=
  (C10_rejection_leaves_state_unchanged
    { streamActive := true, interactionReady := true, clientInit := true,
      queue := ["old"], timers := [] } "").2 rfl rfl rfl rfl

theorem filter_ne_pair_ne_nil {people : List String} {a b : String}
    (hN : people.Nodup) (hlen : 2 < people.length) :
    people.filter (fun p => p != a && p != b) ≠ [] := by
  intro hnil
  have hall : ∀ p ∈ people, p = a ∨ p = b := by
    intro p hp
    have h := List.filter_eq_nil_iff.1 hnil p hp
    simp at h
    tauto
  obtain ⟨x, y, z, rest, rfl⟩ : ∃ x y z rest, people = x :: y :: z :: rest := by
    match people, hlen with
    | x :: y :: z :: rest, _ => exact ⟨x, y, z, rest, rfl⟩
  simp only [List.nodup_cons, List.mem_cons] at hN
  obtain ⟨hx, hy, _⟩ := hN
  have hxa := hall x (by simp)
  have hya := hall y (by simp)
  have hza := hall z (by simp)
  rcases hxa with rfl | rfl <;> rcases hya with rfl | rfl <;> rcases hza with rfl | rfl <;>
    tauto

/-- C5: the pairing selection in `generate_next_image` never chooses a
newcomer equal to either current-pair member; when the filtered pool is
empty it is refilled with a shuffle of the universe excluding both
current-pair members (so the new pool, after the draw, is a permutation of
that refill minus the newcomer); with more than 2 (distinct) people the
candidate set is never empty, so a newcomer exists; and the chosen newcomer
is removed from the pool (drawing without replacement). -/
theorem C5_pair_selection
    (shuffle : List String → List String)
    (hsh : ∀ l, (shuffle l).Perm l)
    (keepLeft : Bool) (people : List String) (pair : String × String)
    (pool : List String)
    (hpN : people.Nodup) (hplN : pool.Nodup) (hlen : 2 < people.length) :
    ∃ r, selectNext shuffle keepLeft people pair pool = some r ∧
      r.newcomer ≠ pair.1 ∧ r.newcomer ≠ pair.2 ∧
      r.newcomer ∉ r.newPool ∧
      (pool.filter (fun p => p != pair.1 && p != pair.2) = [] →
        r.newPool.Perm
          ((people.filter (fun p => p != pair.1 && p != pair.2)).erase r.newcomer)) := by
  by_cases hc : (pool.filter (fun p => p != pair.1 && p != pair.2)).isEmpty
  · -- pool exhausted: refill from the universe
    have hrefperm := hsh (people.filter (fun p => p != pair.1 && p != pair.2))
    have hrefne : shuffle (people.filter (fun p => p != pair.1 && p != pair.2)) ≠ [] := by
      intro h0
      have hps := hrefperm.symm
      rw [h0] at hps
      exact filter_ne_pair_ne_nil hpN hlen hps.eq_nil
    obtain ⟨nc, tl, hrfl⟩ : ∃ nc tl,
        shuffle (people.filter (fun p => p != pair.1 && p != pair.2)) = nc :: tl := by
      cases h : shuffle (people.filter (fun p => p != pair.1 && p != pair.2)) with
      | nil => exact absurd h hrefne
      | cons nc tl => exact ⟨nc, tl, rfl⟩
    have hsel : selectNext shuffle keepLeft people pair pool =
        some { keeper := if keepLeft then pair.1 else pair.2, newcomer := nc,
               newPool := (nc :: tl).erase nc,
               newPair := if keepLeft then (nc, pair.1) else (pair.2, nc) } := by
      unfold selectNext
      rw [if_pos hc, hrfl]
      rfl
    have hncmem : nc ∈ people.filter (fun p => p != pair.1 && p != pair.2) := by
      have : nc ∈ shuffle (people.filter (fun p => p != pair.1 && p != pair.2)) := by
        rw [hrfl]
        exact List.mem_cons_self nc tl
      exact hrefperm.mem_iff.1 this
    have hne : nc ≠ pair.1 ∧ nc ≠ pair.2 := by
      have h := (List.mem_filter.1 hncmem).2
      simp at h
      exact h
    have hrefN : (nc :: tl).Nodup := by
      rw [← hrfl]
      exact (hrefperm.nodup_iff).2 (hpN.filter _)
    refine ⟨_, hsel, hne.1, hne.2, ?_, ?_⟩
    · intro hmem
      rw [hrefN.mem_erase_iff] at hmem
      exact hmem.1 rfl
    · intro _
      have := hrefperm.erase nc
      rw [hrfl] at this
      exact this
  · -- candidates still available in the pool
    obtain ⟨nc, tl, hrfl⟩ : ∃ nc tl,
        pool.filter (fun p => p != pair.1 && p != pair.2) = nc :: tl := by
      cases h : pool.filter (fun p => p != pair.1 && p != pair.2) with
      | nil => rw [h] at hc; exact absurd rfl hc
      | cons nc tl => exact ⟨nc, tl, rfl⟩
    have hsel : selectNext shuffle keepLeft people pair pool =
        some { keeper := if keepLeft then pair.1 else pair.2, newcomer := nc,
               newPool := pool.erase nc,
               newPair := if keepLeft then (nc, pair.1) else (pair.2, nc) } := by
      unfold selectNext
      rw [if_neg hc, hrfl]
      rfl
    have hncmem : nc ∈ pool.filter (fun p => p != pair.1 && p != pair.2) := by
      rw [hrfl]
      exact List.mem_cons_self nc tl
    have hne : nc ≠ pair.1 ∧ nc ≠ pair.2 := by
      have h := (List.mem_filter.1 hncmem).2
      simp at h
      exact h
    refine ⟨_, hsel, hne.1, hne.2, ?_, ?_⟩
    · intro hmem
      rw [hplN.mem_erase_iff] at hmem
      exact hmem.1 rfl
    · intro h0
      rw [h0] at hrfl
      exact absurd hrfl (by simp)

/-- C5 witness: the theorem applied to the concrete universe
["01", "02", "03"], current pair ("01", "02") and an exhausted pool, with
the identity shuffle. -/
theorem C5_pair_selection_witness :
    ∃ r, selectNext (fun l => l) true ["01", "02", "03"] ("01", "02") [] = some r ∧
      r.newcomer ≠ "01" ∧ r.newcomer ≠ "02" ∧
      r.newcomer ∉ r.newPool ∧
      (List.filter (fun p => p != "01" && p != "02") [] = [] →
        r.newPool.Perm
          ((List.filter (fun p => p != "01" && p != "02") ["01", "02", "03"]).erase
            r.newcomer)) :=
  C5_pair_selection (fun l => l) (fun l => List.Perm.refl l) true
    ["01", "02", "03"] ("01", "02") [] (by decide) (by decide) (by decide)

/-- C8: if decoding the destination image fails, the Transition Renderer
fails with an `ImageLoadError` (before writing any frame), and the Session
Driver's segment-end handler catches the failure: the current pairing, the
current seed image and the last good frame in the Frame Store are all
retained, the shutdown flag is untouched (the run continues), and the task
slot is cleared so a new generation attempt starts next segment. -/
theorem C8_image_load_error_recovery
    (resize : ℕ → ℕ → Img → Img) (st : DriverState) (pair : String × String)
    (d : Dir) (last : Img) (hlast : st.frameStore = some last) :
    playTransition resize last none d 1 30 =
      Except.error TransitionError.imageLoadError ∧
    (segmentEnd resize st (FalOutcome.done none pair d)).currentPair = st.currentPair ∧
    (segmentEnd resize st (FalOutcome.done none pair d)).currentImage = st.currentImage ∧
    (segmentEnd resize st (FalOutcome.done none pair d)).frameStore = st.frameStore ∧
    (segmentEnd resize st (FalOutcome.done none pair d)).shouldShutdown
      = st.shouldShutdown ∧
    (segmentEnd resize st (FalOutcome.done none pair d)).falTask = false := by
  have hplay : playTransition resize last none d 1 30 =
      Except.error TransitionError.imageLoadError := rfl
  refine ⟨hplay, ?_⟩
  simp [segmentEnd, hlast, hplay]

/-- C8 witness: the theorem at a concrete driver state holding a last good
frame. -/
theorem C8_image_load_error_recovery_witness :
    playTransition idResize srcA none Dir.left 1 30 =
      Except.error TransitionError.imageLoadError ∧
    (segmentEnd idResize
      { currentImage := some srcA, currentPair := ("01", "02"),
        frameStore := some srcA, falStatus := "", falTask := true,
        shouldShutdown := false }
      (FalOutcome.done none ("02", "03") Dir.left)).currentPair = ("01", "02") ∧
    (segmentEnd idResize
      { currentImage := some srcA, currentPair := ("01", "02"),
        frameStore := some srcA, falStatus := "", falTask := true,
        shouldShutdown := false }
      (FalOutcome.done none ("02", "03") Dir.left)).currentImage = some srcA ∧
    (segmentEnd idResize
      { currentImage := some srcA, currentPair := ("01", "02"),
        frameStore := some srcA, falStatus := "", falTask := true,
        shouldShutdown := false }
      (FalOutcome.done none ("02", "03") Dir.left)).frameStore = some srcA ∧
    (segmentEnd idResize
      { currentImage := some srcA, currentPair := ("01", "02"),
        frameStore := some srcA, falStatus := "", falTask := true,
        shouldShutdown := false }
      (FalOutcome.done none ("02", "03") Dir.left)).shouldShutdown = false ∧
    (segmentEnd idResize
      { currentImage := some srcA, currentPair := ("01", "02"),
        frameStore := some srcA, falStatus := "", falTask := true,
        shouldShutdown := false }
      (FalOutcome.done none ("02", "03") Dir.left)).falTask = false :=
  C8_image_load_error_recovery idResize
    { currentImage := some srcA, currentPair := ("01", "02"),
      frameStore := some srcA, falStatus := "", falTask := true,
      shouldShutdown := false }
    ("02", "03") Dir.left srcA rfl
